import Mathlib

/-!
Shallow embedding of the qpdf PDF writer core (impl::Writer and the
linearization classifier) and proofs about its specification.

Byte strings (std::string holding binary data) are modelled as `List Nat`;
machine integers as `Int` or `Nat` as appropriate.  The MD5 primitive is an
external collaborator of the writer and is modelled as an abstract function
parameter, so every theorem quantifies over it.
-/

namespace Writer

abbrev Bytes := List Nat

/-- Bytes of a Lean string literal (ASCII contents only are used here). -/
def strB (s : String) : Bytes := s.data.map Char.toNat

/-- Decimal digits of a natural number, as bytes (std::to_string). -/
def natB (n : Nat) : Bytes := strB (toString n)

/-- std::string assignment from a char* buffer: the value stops at the first
NUL terminator. -/
def cString (bs : Bytes) : Bytes := bs.takeWhile (· ≠ 0)

/-! ## Version comparison (impl::Writer::compareVersions) -/

def compareVersions (major1 minor1 major2 minor2 : Int) : Int :=
  if major1 < major2 then -1
  else if major1 > major2 then 1
  else if minor1 < minor2 then -1
  else if minor1 > minor2 then 1
  else 0

/-! ## Encryption state and disableIncompatibleEncryption -/

/-- The V and R parameters of the writer's encryption state
(QPDF::Doc::Encryption, as read by disableIncompatibleEncryption). -/
structure Encryption where
  V : Int
  R : Int
deriving DecidableEq, Repr

/-- impl::Writer::disableIncompatibleEncryption: given the forced version
(major.minor plus extension level) and the cfg.encrypt_use_aes flag, either
keep the encryption state or reset it to none.  Mirrors the if/else-if chain
of the source. -/
def disableIncompatibleEncryption (use_aes : Bool) (major minor extension_level : Int)
    (encryption : Option Encryption) : Option Encryption :=
  match encryption with
  | none => none
  | some enc =>
    if compareVersions major minor 1 3 < 0 then
      none
    else
      let V := enc.V
      let R := enc.R
      if compareVersions major minor 1 4 < 0 then
        if V > 1 ∨ R > 2 then none else some enc
      else if compareVersions major minor 1 5 < 0 then
        if V > 2 ∨ R > 3 then none else some enc
      else if compareVersions major minor 1 6 < 0 then
        if use_aes then none else some enc
      else if compareVersions major minor 1 7 < 0 ∨
          (compareVersions major minor 1 7 = 0 ∧ extension_level < 3) then
        if V ≥ 5 ∨ R ≥ 5 then none else some enc
      else
        some enc

/-- Modelled from the spec's words (claim C3): the version table read as
independent removal conditions — encryption is removed when the forced
version is below 1.3; when below 1.4 and (V>1 or R>2); when below 1.5 and
(V>2 or R>3); when below 1.6 and AES is in use; when below 1.7 extension
level 3 and (V≥5 or R≥5); otherwise it is kept unchanged. -/
def disableIncompatibleEncryptionSpec (use_aes : Bool) (major minor extension_level : Int)
    (encryption : Option Encryption) : Option Encryption :=
  match encryption with
  | none => none
  | some enc =>
    if compareVersions major minor 1 3 < 0 ∨
        (compareVersions major minor 1 4 < 0 ∧ (enc.V > 1 ∨ enc.R > 2)) ∨
        (compareVersions major minor 1 5 < 0 ∧ (enc.V > 2 ∨ enc.R > 3)) ∨
        (compareVersions major minor 1 6 < 0 ∧ use_aes) ∨
        ((compareVersions major minor 1 7 < 0 ∨
            (compareVersions major minor 1 7 = 0 ∧ extension_level < 3)) ∧
          (enc.V ≥ 5 ∨ enc.R ≥ 5)) then
      none
    else
      some enc

/-! ## AES stream length adjustment (impl::Writer::adjustAESStreamLength)
and the /Length value emitted for stream dictionaries. -/

/-- impl::Writer::adjustAESStreamLength: when encryption is active with a
non-empty per-object data key and AES in use, the stream length grows by
`32 - (length & 0xf)` (IV plus PKCS-style padding). -/
def adjustAESStreamLength (encryption : Bool) (cur_data_key : Bytes) (use_aes : Bool)
    (length : Nat) : Nat :=
  if encryption ∧ cur_data_key ≠ [] ∧ use_aes then
    length + (32 - length % 16)
  else
    length

/-- The /Length value computed in impl::Writer::unparseObject for a stream:
`cur_stream_length = stream_data.size()` followed by
`adjustAESStreamLength(cur_stream_length)`. -/
def emittedStreamLength (encryption : Bool) (cur_data_key : Bytes) (use_aes : Bool)
    (stream_data : Bytes) : Nat :=
  adjustAESStreamLength encryption cur_data_key use_aes stream_data.length

/-! ## Extra header text (qpdf::Writer::Config::extra_header_text) -/

/-- Config::extra_header_text: store the value, appending a newline when the
value is non-empty and does not already end with one. -/
def extra_header_text (val : String) : String :=
  if ¬val.isEmpty ∧ val.back ≠ '\n' then val ++ "\n" else val

/-! ## Trailer trimming (impl::Writer::trimmed_trailer) -/

/-- Dictionary::erase on the association-list model of a PDF dictionary. -/
def eraseKey (d : List (String × α)) (k : String) : List (String × α) :=
  d.filter (fun p => p.1 ≠ k)

/-- The keys removed by trimmed_trailer, in the order the source erases
them. -/
def trimmedTrailerKeys : List String :=
  ["/ID", "/Encrypt", "/Prev", "/Index", "/W", "/Length", "/Filter",
   "/DecodeParms", "/Type", "/XRefStm"]

/-- impl::Writer::trimmed_trailer: a shallow copy of the input trailer with
the keys that have to be replaced on write erased.  The input dictionary is
an argument and is never modified (the source operates on
unsafeShallowCopy). -/
def trimmed_trailer (trailer : List (String × α)) : List (String × α) :=
  trimmedTrailerKeys.foldl eraseKey trailer

/-! ## ID generation (impl::Writer::generateID and getOriginalID1) -/

/-- The 17-byte char array in the static_id branch of generateID, including
its final 0x00 element. -/
def staticIDArray : Bytes :=
  [0x31, 0x41, 0x59, 0x26, 0x53, 0x58, 0x97, 0x93, 0x23, 0x84, 0x62, 0x64,
   0x33, 0x83, 0x27, 0x95, 0x00]

/-- The runtime_error message thrown when deterministic_id meets encrypted
output, byte for byte as in the source. -/
def deterministicIDEncryptedMessage : String :=
  "QPDFWriter: unable to generated a deterministic ID because the file to be written is encrypted (even though the file may not require a password)"

/-- The logic_error message thrown when no deterministic ID data has been
captured. -/
def deterministicIDNoDataMessage : String :=
  "INTERNAL ERROR: QPDFWriter::generateID has no data for deterministic ID"

/-- The seed string built in the non-static branch of generateID: the
deterministic digest data, or else current time, filename and a space; then
\x22 QPDF \x22 and each string value of the /Info dictionary preceded by a
space. -/
def generateIDSeed (deterministic_id : Bool) (det_data : Bytes) (time : Nat)
    (filename : Bytes) (infoStrings : List Bytes) : Bytes :=
  (if deterministic_id then det_data else natB time ++ filename ++ strB " ")
    ++ strB " QPDF "
    ++ infoStrings.foldl (fun acc s => acc ++ strB " " ++ s) []

/-- impl::Writer::getOriginalID1: the first /ID element of the input trailer,
or the empty string when the trailer has no /ID.  `trailerID1` here is that
result. -/
def getOriginalID1 (trailerID1 : Bytes) : Bytes := trailerID1

/-- impl::Writer::generateID.  `md5` abstracts the MD5 primitive (an external
collaborator); `MD5::encodeString(seed.c_str())` hashes the seed up to its
first NUL byte, hence the `cString`.  Returns the pair (id1, id2) or the
thrown error message. -/
def generateID (static_id deterministic_id : Bool) (encrypted : Bool)
    (trailerID1 : Bytes) (det_data : Bytes) (time : Nat) (filename : Bytes)
    (infoStrings : List Bytes) (md5 : Bytes → Bytes) :
    Except String (Bytes × Bytes) := do
  let result ←
    if static_id then
      pure (cString staticIDArray)
    else
      if deterministic_id ∧ encrypted then
        Except.error deterministicIDEncryptedMessage
      else if deterministic_id ∧ det_data = [] then
        Except.error deterministicIDNoDataMessage
      else
        pure (md5 (cString
          (generateIDSeed deterministic_id det_data time filename infoStrings)))
  let id2 := result
  let id1 := getOriginalID1 trailerID1
  let id1 := if id1 = [] then id2 else id1
  pure (id1, id2)

/-! ## Standard write output (impl::Writer::writeStandard / writeTrailer)

The writer reads the wall-clock time (QUtil::get_current_time) and the output
filename at exactly one place: the non-deterministic seed branch of
generateID.  The model below therefore threads the time and filename
parameters only into generateID.  `body` stands for every byte written before
the ID digest point of writeTrailer (header, extra header text, objects,
encryption dictionary, xref and the trailer keys up to \x22 /ID [\x22); all
of it is a function of the input document and the configuration.
`trailerRest` stands for the bytes after the two ID strings (closing bracket,
startxref section).  For deterministic_id the MD5 tee installed in
writeStandard digests exactly `body`, and computeDeterministicIDData yields
its lowercase hex digest. -/

/-- Lowercase hex digit as a byte, as produced by the hex_digest pipeline
frame. -/
def hexDigitB (n : Nat) : Nat := if n < 10 then 48 + n else 87 + n

/-- Lowercase hex rendering of a byte string. -/
def toHexB (bs : Bytes) : Bytes :=
  bs.foldr (fun b acc => hexDigitB (b / 16 % 16) :: hexDigitB (b % 16) :: acc) []

/-- write_string(id, true): a binary string is written in hex form between
angle brackets. -/
def writeBinaryString (bs : Bytes) : Bytes := 0x3c :: (toHexB bs ++ [0x3e])

/-- The parts of a standard write that depend only on the input document and
the configuration, never on the clock or the output filename. -/
structure WriteInputs where
  body : Bytes
  trailerID1 : Bytes
  infoStrings : List Bytes
  trailerRest : Bytes

/-- Output bytes of impl::Writer::writeStandard (through writeTrailer), as a
function of the input-derived parts, the configuration flags and the two
environment values (time, filename) that generateID may read. -/
def writeStandardOutput (md5 : Bytes → Bytes) (static_id deterministic_id : Bool)
    (encrypted : Bool) (inp : WriteInputs) (time : Nat) (filename : Bytes) :
    Except String Bytes := do
  let det_data := if deterministic_id then toHexB (md5 inp.body) else []
  let (id1, id2) ← generateID static_id deterministic_id encrypted
      inp.trailerID1 det_data time filename inp.infoStrings md5
  pure (inp.body ++ writeBinaryString id1 ++ writeBinaryString id2 ++ inp.trailerRest)

/-! ## Stream filtering decision (impl::Writer::will_filter_stream)

The decision phase of will_filter_stream, before the pipeline attempt loop,
as a pure function.  The loop itself performs stream I/O (pipeStreamData)
and is outside this model. -/

inductive DecodeLevel
  | dl_none
  | generalized
  | specialized
  | all
deriving DecidableEq, Repr

/-- The qpdf_ef_compress / qpdf_ef_normalize bits of encode_flags. -/
structure EncodeFlags where
  compress : Bool
  normalize : Bool
deriving DecidableEq, Repr

def noEncodeFlags : EncodeFlags := ⟨false, false⟩

/-- The configuration fields read by will_filter_stream. -/
structure FilterConfig where
  compress_streams : Bool
  recompress_flate : Bool
  normalize_content : Bool
  decode_level : DecodeLevel
deriving DecidableEq, Repr

/-- The facts about the stream object that will_filter_stream consults.
`filter_name` is the /Filter entry of the stream dictionary when that entry
is a name; `length_is_zero` is the outcome of the source's
`Integer(stream_dict[\x22/Length\x22]) == 0` test; `in_normalized_streams`
says whether the stream is in the writer's normalized_streams set. -/
structure StreamInfo where
  filter_on_write : Bool
  data_modified : Bool
  filter_name : Option String
  is_root_metadata : Bool
  in_normalized_streams : Bool
  length_is_zero : Bool
deriving DecidableEq, Repr

/-- The (filter, encode_flags, decode_level) triple that
will_filter_stream has computed when it reaches its pipeline attempt loop.
`encryption` is whether an encryption state is present and
`encrypt_metadata` its /EncryptMetadata flag. -/
def will_filter_stream_decision (cfg : FilterConfig) (encryption encrypt_metadata : Bool)
    (s : StreamInfo) : Bool × EncodeFlags × DecodeLevel :=
  let decode_level := cfg.decode_level
  let r : Bool × EncodeFlags × DecodeLevel :=
    if s.filter_on_write then
      let filter := s.data_modified || cfg.compress_streams ||
        decide (decode_level ≠ DecodeLevel.dl_none)
      let filter :=
        if cfg.compress_streams then
          match s.filter_name with
          | some fn =>
            if ¬cfg.recompress_flate ∧ ¬s.data_modified ∧
                (fn = "/FlateDecode" ∨ fn = "/Fl") then
              false
            else filter
          | none => filter
        else filter
      if s.is_root_metadata ∧ (¬encryption ∨ ¬encrypt_metadata) then
        (true, noEncodeFlags, DecodeLevel.all)
      else if cfg.normalize_content ∧ s.in_normalized_streams then
        (true, { noEncodeFlags with normalize := true }, decode_level)
      else if filter ∧ cfg.compress_streams then
        (filter, { noEncodeFlags with compress := true }, decode_level)
      else
        (filter, noEncodeFlags, decode_level)
    else
      (false, noEncodeFlags, decode_level)
  if s.length_is_zero then (true, noEncodeFlags, r.2.2) else r

/-! ## Cross-reference table emission (impl::Writer::writeXRefTable) -/

/-- QUtil::int_to_string(val, 10) for non-negative values: decimal digits,
left-padded with zeros to the requested length (the spec describes the
10-digit zero-padded offset and 5-digit generation fields). -/
def intToStringB (n len : Nat) : Bytes :=
  List.replicate (len - (toString n).length) 0x30 ++ natB n

/-- impl::Writer::writeXRefTable, as the byte string it writes: the `xref`
line, the `<first> <count>` line, the special free entry when the section
starts at object 0, and one line per object built from the new-object
table's offsets (with the linearization hint adjustment applied when
`hint_id` is non-zero).  The trailing writeTrailer output is not part of
this model. -/
def writeXRefTable (first last : Nat) (offsets : Nat → Nat) (suppress_offsets : Bool)
    (hint_id : Nat) (hint_offset hint_length : Nat) : Bytes :=
  let header := strB "xref\n" ++ natB first ++ strB " " ++ natB (last - first + 1) ++ strB "\n"
  let zeroEntry := if first = 0 then strB "0000000000 65535 f \n" else []
  let first' := if first = 0 then first + 1 else first
  let entry := fun i =>
    let offset :=
      if suppress_offsets then 0
      else
        let o := offsets i
        if hint_id ≠ 0 ∧ i ≠ hint_id ∧ o ≥ hint_offset then o + hint_length else o
    intToStringB offset 10 ++ strB " 00000 n \n"
  header ++ zeroEntry ++ ((List.range' first' (last + 1 - first')).map entry).flatten

/-- Modelled from the spec's words (claim C9): a table-form cross-reference
section is the line `xref`, a line with the first object number and the
entry count, then one line per entry consisting of a 10-digit zero-padded
offset, a space, a 5-digit generation, a space, the letter n or f, a space
and a newline. -/
def xrefTableSpec (first n : Nat) (entries : List (Nat × Nat × Nat)) : Bytes :=
  strB "xref\n" ++ natB first ++ strB " " ++ natB n ++ strB "\n"
    ++ (entries.map (fun e =>
          intToStringB e.1 10 ++ strB " " ++ intToStringB e.2.1 5 ++ strB " "
            ++ [e.2.2] ++ strB " \n")).flatten

end Writer

namespace Lin

/-! ## Linearization classification (Lin::calculateLinearizationData in
QPDF_linearization.cc)

Each indirect object carries a set of ObjUser tags; the classifier folds
over them computing per-object counters and flags, then sorts the object
into one of the lc_* categories by an if/else-if chain.  The categories map
onto the output parts 4, 6, 7, 8 and 9 as the part-assembly code shows:
lc_root and lc_open_document fill part 4, lc_first_page_private and
lc_first_page_shared fill part 6 (lc_outlines joins part 6 exactly when
outlines_in_first_page), lc_other_page_private fills part 7,
lc_other_page_shared fills part 8, and the thumbnail and other categories
fill part 9. -/

inductive ObjUser
  | trailer_key (key : String)
  | thumb (pageno : Nat)
  | root_key (key : String)
  | page (pageno : Nat)
  | root
deriving DecidableEq, Repr

/-- The open_document_keys set built in calculateLinearizationData. -/
def openDocumentKeys : List String :=
  ["/ViewerPreferences", "/PageMode", "/Threads", "/OpenAction", "/AcroForm"]

/-- The per-object counters and flags accumulated over the ObjUser set. -/
structure UserStats where
  in_open_document : Bool := false
  in_first_page : Bool := false
  other_pages : Nat := 0
  thumbs : Nat := 0
  others : Nat := 0
  in_outlines : Bool := false
  is_root : Bool := false
deriving DecidableEq, Repr

/-- One step of the switch over ou.ou_type in the classification loop. -/
def countUser (st : UserStats) (ou : ObjUser) : UserStats :=
  match ou with
  | .trailer_key k =>
    if k = "/Encrypt" then { st with in_open_document := true }
    else { st with others := st.others + 1 }
  | .thumb _ => { st with thumbs := st.thumbs + 1 }
  | .root_key k =>
    if k ∈ openDocumentKeys then { st with in_open_document := true }
    else if k = "/Outlines" then { st with in_outlines := true }
    else { st with others := st.others + 1 }
  | .page n =>
    if n = 0 then { st with in_first_page := true }
    else { st with other_pages := st.other_pages + 1 }
  | .root => { st with is_root := true }

def userStats (users : List ObjUser) : UserStats :=
  users.foldl countUser {}

inductive Category
  | lc_root
  | outlines
  | open_document
  | first_page_private
  | first_page_shared
  | other_page_private
  | other_page_shared
  | thumbnail_private
  | thumbnail_shared
  | other
deriving DecidableEq, Repr

/-- The if/else-if chain placing an object into its lc_* category. -/
def classify (st : UserStats) : Category :=
  if st.is_root then .lc_root
  else if st.in_outlines then .outlines
  else if st.in_open_document then .open_document
  else if st.in_first_page ∧ st.others = 0 ∧ st.other_pages = 0 ∧ st.thumbs = 0 then
    .first_page_private
  else if st.in_first_page then .first_page_shared
  else if st.other_pages = 1 ∧ st.others = 0 ∧ st.thumbs = 0 then .other_page_private
  else if st.other_pages > 1 then .other_page_shared
  else if st.thumbs = 1 ∧ st.others = 0 then .thumbnail_private
  else if st.thumbs > 1 then .thumbnail_shared
  else .other

/-- The linearization part that each category's objects are emitted into by
the part-assembly code following the classification. -/
def partOf (outlines_in_first_page : Bool) : Category → Nat
  | .lc_root => 4
  | .open_document => 4
  | .outlines => if outlines_in_first_page then 6 else 9
  | .first_page_private => 6
  | .first_page_shared => 6
  | .other_page_private => 7
  | .other_page_shared => 8
  | .thumbnail_private => 9
  | .thumbnail_shared => 9
  | .other => 9

end Lin

namespace Writer

/-! ## Theorems -/

/-- C2: for every stream written while encryption is active with AES in use
and a non-empty per-object data key, the /Length value computed for the
stream dictionary equals `in_len + (16 - in_len mod 16) + 16`, where
`in_len` is the length of the serialized stream data before encryption. -/
theorem aes_emitted_stream_length (cur_data_key : Bytes) (stream_data : Bytes)
    (hkey : cur_data_key ≠ []) :
    emittedStreamLength true cur_data_key true stream_data =
      stream_data.length + (16 - stream_data.length % 16) + 16 := by
  have h : stream_data.length % 16 < 16 := Nat.mod_lt _ (by norm_num)
  simp only [emittedStreamLength, adjustAESStreamLength, hkey]
  simp only [ne_eq, hkey, not_false_eq_true, and_true, true_and, if_true]
  omega

/-- Witness for aes_emitted_stream_length at a 3-byte stream with a one-byte
data key: the emitted length is 3 + 13 + 16 = 32. -/
theorem aes_emitted_stream_length_witness :
    emittedStreamLength true [0x01] true [0x61, 0x62, 0x63] = 32 := by
  have := aes_emitted_stream_length [0x01] [0x61, 0x62, 0x63] (by decide)
  simpa using this

/-- C10: the extra_header_text setter stores an empty string or a string
already ending in a newline unchanged, and appends exactly one newline to a
non-empty string that does not end in one. -/
theorem extra_header_text_spec (val : String) :
    (val = "" → extra_header_text val = val) ∧
    (val.back = '\n' → extra_header_text val = val) ∧
    (val ≠ "" → val.back ≠ '\n' → extra_header_text val = val ++ "\n") := by
  refine ⟨fun h => ?_, fun h => ?_, fun h1 h2 => ?_⟩
  · subst h; rfl
  · simp [extra_header_text, h]
  · have : ¬val.isEmpty := by
      simpa [String.isEmpty_iff] using h1
    simp [extra_header_text, this, h2]

/-- Witness for extra_header_text_spec: a newline is appended to "abc". -/
theorem extra_header_text_spec_witness :
    extra_header_text "abc" = "abc" ++ "\n" :=
  (extra_header_text_spec "abc").2.2 (by decide) (by decide)

/-- Folding Dictionary::erase over a list of keys filters out exactly the
entries whose key is in that list. -/
theorem foldl_eraseKey_eq_filter {α : Type} (keys : List String)
    (t : List (String × α)) :
    keys.foldl eraseKey t = t.filter (fun p => decide (p.1 ∉ keys)) := by
  induction keys generalizing t with
  | nil => simp
  | cons k ks ih =>
    rw [List.foldl_cons, ih]
    unfold eraseKey
    rw [List.filter_filter]
    apply List.filter_congr
    intro p _
    by_cases h1 : p.1 = k <;> by_cases h2 : p.1 ∈ ks <;> simp [h1, h2]

/-- C8: trimmed_trailer is exactly the input trailer filtered of the ten
keys /ID, /Encrypt, /Prev, /Index, /W, /Length, /Filter, /DecodeParms,
/Type and /XRefStm: every other entry survives with its value, order and
multiplicity unchanged, and the input list itself is untouched (the source
erases on a shallow copy). -/
theorem trimmed_trailer_eq_filter {α : Type} (t : List (String × α)) :
    trimmed_trailer t = t.filter (fun p => decide (p.1 ∉ trimmedTrailerKeys)) :=
  foldl_eraseKey_eq_filter trimmedTrailerKeys t

/-- C6 counterexample: a stream whose dictionary /Length is 0 (here under
the default compress_streams configuration with generalized decode level)
is NOT reported as unfiltered: the decision forces the filter flag on. -/
theorem empty_length_filter_counterexample :
    ¬((will_filter_stream_decision ⟨true, false, false, .generalized⟩ false true
        ⟨true, false, none, false, false, true⟩).1 = false) := by
  decide

/-- C6 amended: for every stream whose dictionary /Length value equals 0,
the filtering decision forces the filter flag to true and clears the encode
flags: the stream is decoded and rewritten without compression, rather than
having filtering disabled. -/
theorem empty_length_stream_decision (cfg : FilterConfig)
    (encryption encrypt_metadata : Bool) (s : StreamInfo)
    (h : s.length_is_zero = true) :
    (will_filter_stream_decision cfg encryption encrypt_metadata s).1 = true ∧
    (will_filter_stream_decision cfg encryption encrypt_metadata s).2.1 =
      noEncodeFlags := by
  simp [will_filter_stream_decision, h]

/-- Witness for empty_length_stream_decision at a concrete configuration
and stream. -/
theorem empty_length_stream_decision_witness :
    (will_filter_stream_decision ⟨true, false, false, .generalized⟩ false true
        ⟨true, false, none, false, false, true⟩).1 = true ∧
    (will_filter_stream_decision ⟨true, false, false, .generalized⟩ false true
        ⟨true, false, none, false, false, true⟩).2.1 = noEncodeFlags :=
  empty_length_stream_decision ⟨true, false, false, .generalized⟩ false true
    ⟨true, false, none, false, false, true⟩ (by decide)

/-- C5 counterexample: with static_id set and an input trailer whose /ID
array has first element 0xAA, generateID keeps 0xAA as id1 (the source
comment says: keep /ID from old file even if --static-id was given), so id1
is not the claimed static byte sequence; moreover even id2 is the 16-byte
truncation of the 17-byte array, because the char* assignment stops at the
0x00 terminator. -/
theorem static_id_claim_counterexample :
    generateID true false false [0xAA] [] 0 [] [] id =
      Except.ok ([0xAA], cString staticIDArray) ∧
    ([0xAA] : Bytes) ≠ staticIDArray ∧
    cString staticIDArray ≠ staticIDArray := by
  exact ⟨rfl, by decide, by decide⟩

/-- C5 amended: with static_id set, id2 is always the 16-byte sequence
0x31 41 59 26 53 58 97 93 23 84 62 64 33 83 27 95 (the final 0x00 of the
source array is a C-string terminator, not part of the value); id1 equals
this value only when the input trailer has no /ID, and otherwise preserves
the trailer's first /ID element. -/
theorem generateID_static (deterministic_id encrypted : Bool)
    (trailerID1 det_data : Bytes) (time : Nat) (filename : Bytes)
    (info : List Bytes) (md5 : Bytes → Bytes) :
    generateID true deterministic_id encrypted trailerID1 det_data time
        filename info md5 =
      Except.ok
        ((if trailerID1 = [] then
            [0x31, 0x41, 0x59, 0x26, 0x53, 0x58, 0x97, 0x93, 0x23, 0x84,
             0x62, 0x64, 0x33, 0x83, 0x27, 0x95]
          else trailerID1),
         [0x31, 0x41, 0x59, 0x26, 0x53, 0x58, 0x97, 0x93, 0x23, 0x84,
          0x62, 0x64, 0x33, 0x83, 0x27, 0x95]) := by
  cases trailerID1 <;> rfl

/-- C7 counterexample: the message thrown when deterministic_id meets
encrypted output is not the claimed string; the source message has a
QPDFWriter prefix, says \x22generated\x22, and carries a parenthetical
suffix. -/
theorem deterministic_id_message_counterexample :
    generateID false true true [] [0x61] 0 [] [] id =
      Except.error deterministicIDEncryptedMessage ∧
    deterministicIDEncryptedMessage ≠
      "unable to generate a deterministic ID because the file to be written is encrypted" := by
  exact ⟨rfl, by decide⟩

/-- C7 amended: with deterministic_id set and deterministic digest data
available, generateID fails exactly when encrypted output is requested, and
the error is the source's message \x22QPDFWriter: unable to generated a
deterministic ID because the file to be written is encrypted (even though
the file may not require a password)\x22; in the unencrypted case id1
preserves the input trailer's first /ID element and id2 is the MD5 of the
deterministic seed. -/
theorem generateID_deterministic (trailerID1 det_data : Bytes) (time : Nat)
    (filename : Bytes) (info : List Bytes) (md5 : Bytes → Bytes)
    (hdata : det_data ≠ []) (hid : trailerID1 ≠ []) :
    (∀ encrypted,
      generateID false true encrypted trailerID1 det_data time filename info
          md5 =
        Except.error deterministicIDEncryptedMessage ↔ encrypted = true) ∧
    generateID false true false trailerID1 det_data time filename info md5 =
      Except.ok (trailerID1,
        md5 (cString (generateIDSeed true det_data time filename info))) := by
  have hok : generateID false true false trailerID1 det_data time filename
      info md5 =
      Except.ok (trailerID1,
        md5 (cString (generateIDSeed true det_data time filename info))) := by
    simp [generateID, getOriginalID1, hdata, hid]
    rfl
  refine ⟨fun encrypted => ?_, hok⟩
  cases encrypted
  · simp [hok]
  · simp [generateID]

/-- Witness for generateID_deterministic: with trailer /ID first element
0xAA and digest data present, the unencrypted result preserves 0xAA as
id1. -/
theorem generateID_deterministic_witness :
    generateID false true false [0xAA] [0x61] 0 [] [] id =
      Except.ok ([0xAA], id (cString (generateIDSeed true [0x61] 0 [] []))) :=
  (generateID_deterministic [0xAA] [0x61] 0 [] [] id (by decide) (by decide)).2

/-- Helper: compareVersions is negative exactly when the first version is
lexicographically smaller. -/
theorem compareVersions_lt_iff (a b c d : Int) :
    compareVersions a b c d < 0 ↔ a < c ∨ (a = c ∧ b < d) := by
  unfold compareVersions
  split_ifs <;> constructor <;> intro h <;> omega

/-- Helper: compareVersions is zero exactly on equal versions. -/
theorem compareVersions_eq_zero_iff (a b c d : Int) :
    compareVersions a b c d = 0 ↔ a = c ∧ b = d := by
  unfold compareVersions
  split_ifs <;> constructor <;> intro h <;>
    first | omega | exact h.elim

/-- C3: under the invariants that the writer's configuration maintains for
every configured encryption state (cfg.encrypt_use_aes is only set with
V ≥ 4, and every construction with V ≥ 5 or R ≥ 5 sets it), the source's
disableIncompatibleEncryption chain agrees with the spec's version table
read as independent conditions: encryption is removed exactly when the
forced version is below 1.3, or below 1.4 with V>1 or R>2, or below 1.5
with V>2 or R>3, or below 1.6 with AES in use, or below 1.7 extension
level 3 with V≥5 or R≥5; otherwise it is kept unchanged. -/
theorem disableIncompatibleEncryption_matches_spec (use_aes : Bool)
    (major minor ext : Int) (enc : Encryption)
    (h1 : use_aes = true → 4 ≤ enc.V)
    (h2 : 5 ≤ enc.V ∨ 5 ≤ enc.R → use_aes = true) :
    disableIncompatibleEncryption use_aes major minor ext (some enc) =
      disableIncompatibleEncryptionSpec use_aes major minor ext (some enc) := by
  cases use_aes with
  | false =>
    have hV : enc.V < 5 := by
      by_contra hc
      simpa using h2 (Or.inl (by omega))
    have hR : enc.R < 5 := by
      by_contra hc
      simpa using h2 (Or.inr (by omega))
    simp only [disableIncompatibleEncryption, disableIncompatibleEncryptionSpec,
      compareVersions_lt_iff, compareVersions_eq_zero_iff, Bool.false_eq_true,
      and_false, false_and, or_false, false_or, if_false]
    split_ifs <;> first | rfl | omega
  | true =>
    have hV : 4 ≤ enc.V := h1 rfl
    simp only [disableIncompatibleEncryption, disableIncompatibleEncryptionSpec,
      compareVersions_lt_iff, compareVersions_eq_zero_iff, and_true, true_and,
      if_true, eq_self_iff_true]
    split_ifs <;> first | rfl | omega

/-- Witness for disableIncompatibleEncryption_matches_spec: V=2, R=3
without AES at forced version 1.4 is kept by both definitions. -/
theorem disableIncompatibleEncryption_matches_spec_witness :
    disableIncompatibleEncryption false 1 4 0 (some ⟨2, 3⟩) =
      disableIncompatibleEncryptionSpec false 1 4 0 (some ⟨2, 3⟩) :=
  disableIncompatibleEncryption_matches_spec false 1 4 0 ⟨2, 3⟩
    (by decide) (by decide)

/-- C9: a table-form cross-reference section starting at object 0 is
emitted exactly in the spec's line format: the `xref` line, the
`0 <n>` line with n = last+1 entries, the special entry
`0000000000 65535 f ` for object 0, and for every in-use object a line with
the 10-digit zero-padded offset, a space, the 5-digit generation 00000, a
space, the letter n, a space and a newline. -/
theorem writeXRefTable_format (last : Nat) (offsets : Nat → Nat) :
    writeXRefTable 0 last offsets false 0 0 0 =
      xrefTableSpec 0 (last + 1)
        ((0, 65535, 102) ::
          (List.range' 1 last).map (fun i => (offsets i, 0, 110))) := by
  have hzero : (strB "0000000000 65535 f \n" : Bytes) =
      intToStringB 0 10 ++ strB " " ++ intToStringB 65535 5 ++ strB " "
        ++ [102] ++ strB " \n" := by decide
  have htail : (strB " 00000 n \n" : Bytes) =
      strB " " ++ intToStringB 0 5 ++ strB " " ++ [110] ++ strB " \n" := by
    decide
  have hmap : ((List.range' 1 last).map (fun i =>
        intToStringB (offsets i) 10 ++ strB " 00000 n \n")) =
      ((List.range' 1 last).map (fun i =>
        intToStringB (offsets i) 10 ++ strB " " ++ intToStringB 0 5
          ++ strB " " ++ [110] ++ strB " \n")) := by
    apply List.map_congr_left
    intro i _
    rw [htail]
    simp [List.append_assoc]
  simp only [writeXRefTable, xrefTableSpec, if_true, Nat.sub_zero,
    Nat.add_sub_cancel, List.map_cons, List.flatten_cons, List.map_map,
    Nat.zero_add, Bool.false_eq_true, reduceIte, ne_eq, not_true_eq_false,
    false_and, Function.comp]
  rw [hzero, hmap]
  simp only [List.append_assoc]
  congr 1

/-- C1: a standard write with deterministic_id does not depend on the
wall-clock time or on the output filename: for the same input-derived data,
any two choices of time and filename yield byte-identical output. -/
theorem writeStandard_deterministic_id_independent (md5 : Bytes → Bytes)
    (static_id : Bool) (inp : WriteInputs) (t1 t2 : Nat) (f1 f2 : Bytes) :
    writeStandardOutput md5 static_id true false inp t1 f1 =
      writeStandardOutput md5 static_id true false inp t2 f2 := by
  cases static_id <;>
    simp [writeStandardOutput, generateID, generateIDSeed]

end Writer

namespace Lin

/-- C4 counterexample: an object whose ObjUser set is exactly one page user
with index 1 plus one thumb user satisfies every precondition the claim
lists for part 7 (exactly one page user with index > 0, not the root, not
open-document, not /Outlines, not referenced by page 0), yet the classifier
puts it in the thumbnail-private category, which is emitted into part 9,
not 7. -/
theorem part7_claim_counterexample :
    (userStats [ObjUser.page 1, ObjUser.thumb 0]).other_pages = 1 ∧
    (userStats [ObjUser.page 1, ObjUser.thumb 0]).is_root = false ∧
    (userStats [ObjUser.page 1, ObjUser.thumb 0]).in_outlines = false ∧
    (userStats [ObjUser.page 1, ObjUser.thumb 0]).in_open_document = false ∧
    (userStats [ObjUser.page 1, ObjUser.thumb 0]).in_first_page = false ∧
    classify (userStats [ObjUser.page 1, ObjUser.thumb 0]) =
      Category.thumbnail_private ∧
    partOf false (classify (userStats [ObjUser.page 1, ObjUser.thumb 0])) = 9 := by
  decide

/-- C4 amended: among objects that are not the root, not reached from the
open-document root keys or trailer /Encrypt, not /Outlines objects and not
referenced by page 0, those whose user set counts exactly one page with
index > 0 AND no thumb users AND no other users are placed in part 7, and
those referenced by more than one page with index > 0 are placed in
part 8. -/
theorem parts_seven_eight_classification (users : List ObjUser) (ofp : Bool)
    (hroot : (userStats users).is_root = false)
    (houtl : (userStats users).in_outlines = false)
    (hopen : (userStats users).in_open_document = false)
    (hfp : (userStats users).in_first_page = false) :
    ((userStats users).other_pages = 1 ∧ (userStats users).others = 0 ∧
        (userStats users).thumbs = 0 →
      partOf ofp (classify (userStats users)) = 7) ∧
    (1 < (userStats users).other_pages →
      partOf ofp (classify (userStats users)) = 8) := by
  generalize userStats users = st at *
  constructor
  · rintro ⟨h1, h2, h3⟩
    simp [classify, partOf, hroot, houtl, hopen, hfp, h1, h2, h3]
  · intro h
    have hne : ¬(st.other_pages = 1 ∧ st.others = 0 ∧ st.thumbs = 0) := by
      rintro ⟨h1, -, -⟩
      omega
    simp [classify, partOf, hroot, houtl, hopen, hfp, hne, h]

/-- Witness for parts_seven_eight_classification: a single page-1 user
yields part 7; two page users with indexes 1 and 2 yield part 8. -/
theorem parts_seven_eight_classification_witness :
    partOf false (classify (userStats [ObjUser.page 1])) = 7 ∧
    partOf false (classify (userStats [ObjUser.page 1, ObjUser.page 2])) = 8 :=
  ⟨(parts_seven_eight_classification [ObjUser.page 1] false
      (by decide) (by decide) (by decide) (by decide)).1 (by decide),
   (parts_seven_eight_classification [ObjUser.page 1, ObjUser.page 2] false
      (by decide) (by decide) (by decide) (by decide)).2 (by decide)⟩

end Lin
